import Mathlib

/-!
Formal model of the core services of the YouTube-Analysis repository
(`services/youtubePuppeteerService.js`, `services/transcriptionService.js`).

JavaScript values are embedded as follows: strings are `String`, JS numbers
that can be `NaN` are `Option ℚ` / `Option ℤ` (with `none` playing `NaN`),
fallible calls are `Except`, absent object keys are `Option` fields, and the
outcomes of the effectful collaborators (browser page, downloader, remote
APIs, clock) are supplied through explicit environment records.
-/

namespace YTA

/-- JS `String.prototype.includes` on lists of characters:
`needle` occurs contiguously in the argument. -/
def listContainsSub (needle : List Char) : List Char → Bool
  | [] => needle.isEmpty
  | c :: rest => needle.isPrefixOf (c :: rest) || listContainsSub needle rest

/-- JS `hay.includes(needle)`. -/
def strIncludes (hay needle : String) : Bool :=
  listContainsSub needle.toList hay.toList

/-- JS `a || b` where `a` is a possibly-absent string (`undefined`/`null`
and the empty string are falsy). -/
def jsOrD (a : Option String) (b : String) : String :=
  match a with
  | some s => if s = "" then b else s
  | none => b

/-- JS `a || b` on possibly-absent strings, keeping the result optional. -/
def jsOr (a b : Option String) : Option String :=
  match a with
  | some s => if s = "" then b else some s
  | none => b

/-- JS `s.replace(/\s+/g, '')`: remove every whitespace character. -/
def stripWhitespace (s : String) : String :=
  String.mk (s.toList.filter (fun c => !c.isWhitespace))

/-- JS `String.prototype.trim`: drop leading and trailing whitespace. -/
def jsTrim (s : String) : String :=
  String.mk (((s.toList.dropWhile Char.isWhitespace).reverse.dropWhile
    Char.isWhitespace).reverse)

/-- JS `String.prototype.toLowerCase` (ASCII range, the one exercised). -/
def jsToLower (s : String) : String :=
  String.mk (s.toList.map Char.toLower)

/-- JS `s.substring(0, n)`. -/
def jsSubstrTo (s : String) (n : Nat) : String :=
  String.mk (s.toList.take n)

/-- JS `s.split(' ')`: split at every single space, keeping empty pieces. -/
def splitOnSpace : List Char → List Char → List String
  | [], cur => [String.mk cur.reverse]
  | c :: rest, cur =>
    if c = ' ' then String.mk cur.reverse :: splitOnSpace rest []
    else splitOnSpace rest (c :: cur)

/-! ### URL validation and identifier extraction

`isValidYouTubeUrl` and `extractVideoId` in `youtubePuppeteerService.js`
are regular-expression tests.  The regexes are embedded by backtracking
matchers over `List Char`: a matcher step returns the list of possible
remainders in the engine's backtracking priority order (ordered
alternatives first-to-last, greedy repetition longest-first). -/

/-- Match a literal, returning the single remainder on success. -/
def litp (p : List Char) (cs : List Char) : List (List Char) :=
  if p.isPrefixOf cs then [cs.drop p.length] else []

/-- Length of the run matched by `.` repetition (`.` does not match a newline). -/
def dotRunLen (cs : List Char) : Nat :=
  (cs.takeWhile (fun c => c ≠ '\n')).length

/-- Remainders of greedy `.*`, longest consumption first. -/
def starAny (cs : List Char) : List (List Char) :=
  ((List.range (dotRunLen cs + 1)).reverse).map (fun k => cs.drop k)

/-- Remainders of greedy `.+`, longest consumption first. -/
def plusAny (cs : List Char) : List (List Char) :=
  ((List.range (dotRunLen cs)).reverse).map (fun k => cs.drop (k + 1))

/-- Remainders of greedy `[^\/]+`, longest consumption first. -/
def plusNonSlash (cs : List Char) : List (List Char) :=
  ((List.range (cs.takeWhile (fun c => c ≠ '/')).length).reverse).map
    (fun k => cs.drop (k + 1))

/-- Optional item `p?` (greedy: matching branch first). -/
def optP (f : List Char → List (List Char)) (cs : List Char) : List (List Char) :=
  f cs ++ [cs]

/-- Character class `[^"&?\/\s]` of the capture group in the id regex. -/
def idChar (c : Char) : Bool :=
  !(c = '"' || c = '&' || c = '?' || c = '/' || c.isWhitespace)

/-- Character class `[a-zA-Z0-9_-]` used by the second validation pattern. -/
def ytIdChar (c : Char) : Bool :=
  c.isAlpha || c.isDigit || c = '_' || c = '-'

/-- The capture `([^"&?\/\s]{11})`: take exactly 11 class characters. -/
def captureId (cs : List Char) : Option (List Char) :=
  let t := cs.take 11
  if t.length = 11 && t.all idChar then some t else none

/-- The inner alternation of the id regex after a literal `youtube.com/`:
`[^\/]+\/.+\/` or `(?:v|e(?:mbed)?)\/` or `.*[?&]v=`, in that order. -/
def innerAlts (cs : List Char) : List (List Char) :=
  ((plusNonSlash cs).flatMap (fun r1 =>
      (litp ['/'] r1).flatMap (fun r2 =>
        (plusAny r2).flatMap (fun r3 => litp ['/'] r3))))
  ++ litp "v/".toList cs
  ++ litp "embed/".toList cs
  ++ litp "e/".toList cs
  ++ ((starAny cs).flatMap (fun r =>
        match r with
        | c :: r2 => if c = '?' || c = '&' then litp "v=".toList r2 else []
        | [] => []))

/-- All remainders after the non-capturing part of the id regex matched
at the head of `cs`. -/
def idMatchStarts (cs : List Char) : List (List Char) :=
  ((litp "youtube.com/".toList cs).flatMap innerAlts)
  ++ litp "youtu.be/".toList cs

/-- Try a full match (including the capture) anchored at the head of `cs`. -/
def idMatchAt (cs : List Char) : Option (List Char) :=
  (idMatchStarts cs).findSome? captureId

/-- Leftmost match of the id regex over the whole input. -/
def idFindLeftmost : List Char → Option (List Char)
  | [] => none
  | c :: rest =>
    match idMatchAt (c :: rest) with
    | some t => some t
    | none => idFindLeftmost rest

/-- `extractVideoId` (`youtubePuppeteerService.js:38`): first capture of
`/(?:youtube\.com\/(?:[^\/]+\/.+\/|(?:v|e(?:mbed)?)\/|.*[?&]v=)|youtu\.be\/)([^"&?\/\s]{11})/`
applied to the URL; throws when there is no match. -/
def extractVideoId (url : String) : Except String String :=
  match idFindLeftmost url.toList with
  | some t => .ok (String.mk t)
  | none => .error "Could not extract video ID"

/-- First validation pattern
`/^https?:\/\/(www\.)?(youtube\.com\/watch\?v=|youtu\.be\/|youtube\.com\/embed\/)/`
as an existence test. -/
def validPattern1 (cs : List Char) : Bool :=
  !((((litp "http".toList cs).flatMap (optP (litp ['s']))).flatMap
      (litp "://".toList)).flatMap (optP (litp "www.".toList)) |>.flatMap
      (fun r => litp "youtube.com/watch?v=".toList r
        ++ litp "youtu.be/".toList r
        ++ litp "youtube.com/embed/".toList r)).isEmpty

/-- Second validation pattern
`/^https?:\/\/(www\.)?youtube\.com\/watch\?.*v=([a-zA-Z0-9_-]{11})/`
as an existence test. -/
def validPattern2 (cs : List Char) : Bool :=
  !((((((litp "http".toList cs).flatMap (optP (litp ['s']))).flatMap
      (litp "://".toList)).flatMap (optP (litp "www.".toList))).flatMap
      (litp "youtube.com/watch?".toList)).flatMap starAny |>.flatMap
      (litp "v=".toList) |>.filter
      (fun r => (r.take 11).length = 11 && (r.take 11).all ytIdChar)).isEmpty

/-- `isValidYouTubeUrl` (`youtubePuppeteerService.js:30`): the URL is valid
if either pattern matches. -/
def isValidYouTubeUrl (url : String) : Bool :=
  validPattern1 url.toList || validPattern2 url.toList

/-! ### View-count parsing

`parseViewCount` (`youtubePuppeteerService.js:643`).  JS numbers that may
be `NaN` are embedded as `Option ℚ` (`none` = `NaN`); `parseFloat` returns
`NaN` exactly when no numeric literal starts the string. -/

/-- Numeric value of a digit string. -/
def digitsVal (ds : List Char) : Nat :=
  ds.foldl (fun a c => a * 10 + (c.toNat - '0'.toNat)) 0

/-- A finite JS number as an exact fraction (denominator a power of ten,
always positive).  The float literals reaching `parseFloat` here are small
enough that exact rational arithmetic agrees with double arithmetic. -/
structure JsNum where
  num : ℤ
  den : ℤ
  deriving DecidableEq, Repr

/-- Exponent part of a JS float literal: sign and digits after `e`/`E`;
a malformed exponent contributes nothing (JS takes the longest valid
numeric literal at the head of the string). -/
def parseExpPart (r : List Char) : ℤ :=
  match r with
  | '-' :: r2 =>
    let ds := r2.takeWhile Char.isDigit
    if ds.isEmpty then 0 else -(digitsVal ds : ℤ)
  | '+' :: r2 =>
    let ds := r2.takeWhile Char.isDigit
    if ds.isEmpty then 0 else (digitsVal ds : ℤ)
  | _ =>
    let ds := r.takeWhile Char.isDigit
    if ds.isEmpty then 0 else (digitsVal ds : ℤ)

/-- JS `parseFloat`: skip leading whitespace, optional sign, digits with an
optional fraction, and an optional well-formed exponent; `none` (= `NaN`)
when no digits are found.  (The case-sensitive literal `Infinity` cannot
reach the one call site, whose argument has been lowercased.) -/
def jsParseFloat (s : String) : Option JsNum :=
  let cs := s.toList.dropWhile Char.isWhitespace
  let signAndRest : ℤ × List Char :=
    match cs with
    | '-' :: r => (-1, r)
    | '+' :: r => (1, r)
    | _ => (1, cs)
  let sign := signAndRest.1
  let cs1 := signAndRest.2
  let ip := cs1.takeWhile Char.isDigit
  let r1 := cs1.dropWhile Char.isDigit
  let fracAndRest : List Char × List Char :=
    match r1 with
    | '.' :: r => (r.takeWhile Char.isDigit, r.dropWhile Char.isDigit)
    | _ => ([], r1)
  let fp := fracAndRest.1
  let r2 := fracAndRest.2
  if ip.isEmpty && fp.isEmpty then none
  else
    let baseNum : ℤ :=
      sign * ((digitsVal ip : ℤ) * (Int.ofNat (10 ^ fp.length)) + (digitsVal fp : ℤ))
    let baseDen : ℤ := Int.ofNat (10 ^ fp.length)
    let expo : ℤ :=
      match r2 with
      | 'e' :: r => parseExpPart r
      | 'E' :: r => parseExpPart r
      | _ => 0
    some (if 0 ≤ expo then ⟨baseNum * Int.ofNat (10 ^ expo.toNat), baseDen⟩
          else ⟨baseNum, baseDen * Int.ofNat (10 ^ (-expo).toNat)⟩)

/-- `Math.floor` of a scaled `JsNum`: `⌊(num * m) / den⌋` (the denominator
is positive, so `Int.fdiv` is the floor). -/
def floorScaled (q : JsNum) (m : ℤ) : ℤ :=
  Int.fdiv (q.num * m) q.den

/-- `parseViewCount` (`youtubePuppeteerService.js:643`).  Empty input is
falsy and yields 0.  Otherwise the text is lowercased, commas and
whitespace are removed, `parseFloat` is applied, and a `k`/`m`/`b`
ANYWHERE in the processed text (tested in that order) selects the scale;
`Math.floor(NaN)` is `NaN` (`none`), and the final `|| 0` turns a falsy
result (`NaN` or 0) of the no-suffix branch into 0. -/
def parseViewCount (viewCountText : String) : Option ℤ :=
  if viewCountText = "" then some 0
  else
    let text := String.mk
      ((jsToLower viewCountText).toList.filter (fun c => !(c = ',' || c.isWhitespace)))
    let number := jsParseFloat text
    if strIncludes text "k" then number.map (fun q => floorScaled q 1000)
    else if strIncludes text "m" then number.map (fun q => floorScaled q 1000000)
    else if strIncludes text "b" then number.map (fun q => floorScaled q 1000000000)
    else
      match number with
      | none => some 0
      | some q => some (floorScaled q 1)

/-! ### Sentence classification (`transcriptionService.js`)

`extractSentences` splits on the regex `[.!?]+` (maximal runs of
sentence-terminal punctuation collapse into one separator, with an empty
leading/trailing piece when the text starts/ends with such a run, exactly
as JS `String.prototype.split`), trims each piece and keeps those longer
than 5 characters. -/

/-- Sentence-terminal punctuation class `[.!?]`. -/
def isSentTerm (c : Char) : Bool :=
  c = '.' || c = '!' || c = '?'

/-- JS `text.split(/[.!?]+/)`: the accumulator holds the current piece
reversed; the flag records being inside a separator run. -/
def jsSplitAux : List Char → List Char → Bool → List String
  | [], cur, false => [String.mk cur.reverse]
  | [], _, true => [""]
  | c :: rest, cur, false =>
    if isSentTerm c then String.mk cur.reverse :: jsSplitAux rest [] true
    else jsSplitAux rest (c :: cur) false
  | c :: rest, _, true =>
    if isSentTerm c then jsSplitAux rest [] true
    else jsSplitAux rest [c] false

/-- JS `text.split(/[.!?]+/)` on a string. -/
def jsSplitSentences (text : String) : List String :=
  jsSplitAux text.toList [] false

/-- `extractSentences` (`transcriptionService.js:213`): the empty string is
falsy (returns `[]`); otherwise split, trim, and keep pieces of length
greater than 5. -/
def extractSentences (text : String) : List String :=
  if text = "" then []
  else ((jsSplitSentences text).map jsTrim).filter (fun s => s.length > 5)

/-- Payload of a successful ZeroGPT detector response (`result.data`). -/
structure ZgData where
  fakePercentage : ℚ
  isHuman : Bool
  textWords : Nat
  deriving DecidableEq, Repr

/-- Score object built by `checkAIContent` (`transcriptionService.js:128`);
on a non-2xx response or network error it is `{ai_probability: 0, error}`,
whose other fields are absent (`none`). -/
structure AiScore where
  ai_probability : ℚ
  is_human : Option Bool
  text_words : Option Nat
  fake_percentage : Option ℚ
  error : Option String
  deriving DecidableEq, Repr

/-- `checkAIContent`: map the remote detector's outcome (`none` models a
network failure or non-ok HTTP status) to a score object. -/
def checkAIContent (resp : Option ZgData) : AiScore :=
  match resp with
  | some d => ⟨d.fakePercentage, some d.isHuman, some d.textWords, some d.fakePercentage, none⟩
  | none => ⟨0, none, none, none, some "API error"⟩

/-- One element of the processed-sentence list: the sentence text, its
index in the candidate list, and the spread of the `checkAIContent` score. -/
structure SentScore where
  text : String
  index : Nat
  ai_probability : ℚ
  is_human : Option Bool
  text_words : Option Nat
  fake_percentage : Option ℚ
  deriving DecidableEq, Repr

/-- The classification loop of `processTranscriptWithAI`
(`transcriptionService.js:179`): sentences whose trimmed length exceeds
10 are sent to the detector (`zg i` is the detector's response to the
request for index `i`) and appended; others are skipped. -/
def processLoop (zg : Nat → Option ZgData) : Nat → List String → List SentScore
  | _, [] => []
  | i, s :: rest =>
    if (jsTrim s).length > 10 then
      (let sc := checkAIContent (zg i)
       ⟨s, i, sc.ai_probability, sc.is_human, sc.text_words, sc.fake_percentage⟩
         :: processLoop zg (i + 1) rest)
    else processLoop zg (i + 1) rest

/-- The `ai_analysis` block (`transcriptionService.js:194`). -/
structure AiAnalysis where
  total_sentences : Nat
  processed_sentences : Nat
  sentences : List SentScore
  overall_ai_probability : ℚ
  average_fake_percentage : ℚ
  deriving DecidableEq, Repr

/-- Build the `ai_analysis` block for a transcript text: `reduce` is a left
fold, `s.ai_probability || 0` keeps a rational unchanged (0 stays 0), and
`s.fake_percentage || 0` reads an absent field as 0. -/
def aiAnalysisOf (text : String) (zg : Nat → Option ZgData) : AiAnalysis :=
  let sentences := extractSentences text
  let processed := processLoop zg 0 sentences
  { total_sentences := sentences.length
    processed_sentences := processed.length
    sentences := processed
    overall_ai_probability :=
      if processed.length > 0 then
        (processed.foldl (fun sum s => sum + s.ai_probability) 0) / (processed.length : ℚ)
      else 0
    average_fake_percentage :=
      if processed.length > 0 then
        (processed.foldl (fun sum s => sum + s.fake_percentage.getD 0) 0) / (processed.length : ℚ)
      else 0 }

/-! ### Transcription (`transcriptionService.js`) -/

/-- Raw transcript returned by the speech-to-text service. -/
structure Transcript where
  text : String
  speakers : List String
  events : List String
  duration : ℚ
  language : String
  confidence : ℚ
  deriving DecidableEq, Repr

/-- Result object of `transcribeAudioFile`: the `transcription` and
`ai_analysis` keys exist only on success, `error` only on failure. -/
structure TransResult where
  success : Bool
  error : Option String
  transcription : Option Transcript
  ai_analysis : Option AiAnalysis
  timestamp : String
  audioFile : String
  deriving DecidableEq, Repr

/-- Environment of one `transcribeAudioFile` call: the combined outcome of
reading the audio file and the remote speech-to-text call, the detector
oracle, and the clock reading used for the timestamps. -/
structure TransEnv where
  outcome : Except String Transcript
  zg : Nat → Option ZgData
  now : String

/-- `processTranscriptWithAI` (`transcriptionService.js:165`): unchanged
unless the input is a successful result carrying a transcription, in which
case the `ai_analysis` block is attached. -/
def processTranscriptWithAI (t : TransResult) (zg : Nat → Option ZgData) : TransResult :=
  if !t.success then t
  else
    match t.transcription with
    | none => t
    | some tr => { t with ai_analysis := some (aiAnalysisOf tr.text zg) }

/-- `transcribeAudioFile` (`transcriptionService.js:23`): on success the
raw result is passed through `processTranscriptWithAI`; on any error a
`{success: false, error, timestamp}` object is returned and the classifier
is not invoked.  The second component records whether
`processTranscriptWithAI` was called (the file-saving side effect is not
modeled). -/
def transcribeAudioFile (audioPath : String) (env : TransEnv) : TransResult × Bool :=
  match env.outcome with
  | .ok tr =>
    (processTranscriptWithAI ⟨true, none, some tr, none, env.now, audioPath⟩ env.zg, true)
  | .error e => (⟨false, some e, none, none, env.now, audioPath⟩, false)

/-- `formatTranscription` (`transcriptionService.js:257`).  In the failure
branch the source object carries only `text`/`speakers`/`events`/`error`;
the remaining fields are zero-valued here and are not read by any caller
on that branch. -/
structure FormattedTranscription where
  text : String
  speakers : List String
  events : List String
  duration : ℚ
  language : String
  confidence : ℚ
  wordCount : Nat
  error : Option String
  ai_analysis : Option AiAnalysis
  deriving DecidableEq, Repr

/-- JS `text ? text.split(' ').length : 0`. -/
def jsWordCount (t : String) : Nat :=
  if t = "" then 0 else (splitOnSpace t.toList []).length

/-- `formatTranscription` on a transcription result. -/
def formatTranscription (r : TransResult) : FormattedTranscription :=
  if !r.success then
    ⟨"", [], [], 0, "", 0, 0, some (r.error.getD "Transcription failed"), none⟩
  else
    match r.transcription with
    | none => ⟨"", [], [], 0, "", 0, 0, some (r.error.getD "Transcription failed"), none⟩
    | some tr =>
      ⟨tr.text, tr.speakers, tr.events, tr.duration,
        jsOrD (some tr.language) "eng", tr.confidence, jsWordCount tr.text, none, r.ai_analysis⟩

/-! ### Metadata extraction cascades (`youtubePuppeteerService.js:112`)

The page is an environment mapping a selector string to the element
`document.querySelector` finds, if any.  An element carries an optional
`textContent` and an optional `content` attribute (meta tags). -/

/-- A DOM element as observed by the extraction code. -/
structure Elem where
  textContent : Option String
  content : Option String
  deriving DecidableEq, Repr

/-- The page state: `querySelector` as a function. -/
abbrev SelectorEnv := String → Option Elem

/-- `element.textContent?.trim() || element.content || fallback`. -/
def elValue (el : Elem) (fallback : String) : String :=
  jsOrD (jsOr (el.textContent.map jsTrim) el.content) fallback

/-- Cascade shape of the title and channel loops: stop at the FIRST
selector that finds an element, whatever its content. -/
def firstElementCascade (env : SelectorEnv) : List String → String → String
  | [], dflt => dflt
  | sel :: rest, dflt =>
    match env sel with
    | some el => elValue el dflt
    | none => firstElementCascade env rest dflt

/-- Cascade shape of the view-count loop: stop at the first selector whose
element has a truthy (non-empty) `textContent`; the value is its trim. -/
def viewCountCascade (env : SelectorEnv) : List String → String → String
  | [], dflt => dflt
  | sel :: rest, dflt =>
    match env sel with
    | some el =>
      match el.textContent with
      | some t => if t ≠ "" then jsTrim t else viewCountCascade env rest dflt
      | none => viewCountCascade env rest dflt
    | none => viewCountCascade env rest dflt

/-- Cascade shape of the description loop: carry the current value, stop
once it is non-empty after an element was found. -/
def descriptionCascade (env : SelectorEnv) : List String → String → String
  | [], cur => cur
  | sel :: rest, cur =>
    match env sel with
    | some el =>
      let d := elValue el cur
      if d.length > 0 then d else descriptionCascade env rest d
    | none => descriptionCascade env rest cur

/-- Cascade shape of the duration loop: carry the current value, stop once
it differs from `"Unknown"` after an element was found. -/
def durationCascade (env : SelectorEnv) : List String → String → String
  | [], cur => cur
  | sel :: rest, cur =>
    match env sel with
    | some el =>
      let d := elValue el cur
      if d ≠ "Unknown" then d else durationCascade env rest d
    | none => durationCascade env rest cur

def titleSelectors : List String :=
  ["h1.ytd-watch-metadata yt-formatted-string",
   "h1.style-scope.ytd-watch-metadata",
   "h1[class*=\"title\"]",
   "meta[property=\"og:title\"]"]

def channelSelectors : List String :=
  ["ytd-channel-name #text a",
   "ytd-video-owner-renderer .ytd-channel-name a",
   "#owner-name a",
   "meta[name=\"author\"]"]

def viewSelectors : List String :=
  ["ytd-watch-info-text .view-count",
   ".view-count",
   "#info .view-count",
   "span[class*=\"view\"]"]

def descriptionSelectors : List String :=
  ["ytd-expandable-video-description-body-renderer span",
   "#description-text",
   "meta[property=\"og:description\"]"]

def durationSelectors : List String :=
  [".ytp-time-duration",
   "span.ytp-time-duration",
   "meta[property=\"video:duration\"]"]

/-- The object returned by the `page.evaluate` block. -/
structure VideoInfo where
  title : String
  channelName : String
  viewCount : String
  description : String
  duration : String
  deriving DecidableEq, Repr

/-- The `page.evaluate` extraction (`youtubePuppeteerService.js:112`):
each field runs its own cascade; the description is capped at 500
characters on return. -/
def evaluateVideoInfo (env : SelectorEnv) : VideoInfo :=
  { title := firstElementCascade env titleSelectors "Unknown Title"
    channelName := firstElementCascade env channelSelectors "Unknown Channel"
    viewCount := viewCountCascade env viewSelectors "0"
    description := jsSubstrTo (descriptionCascade env descriptionSelectors "") 500
    duration := durationCascade env durationSelectors "Unknown" }

/-! ### Audio acquisition (`youtubePuppeteerService.js:435`) -/

/-- Environment of one `downloadAudio` call.  `ts` is the `Date.now()`
taken for the output filename and `tsSilent` the one taken inside
`createSilentWav`; `installOk` is the toolchain check, whose failure is
swallowed and changes nothing; `m1FileExists` is what `fs.existsSync`
reports on the expected output path after method 1 resolves. -/
structure DlEnv where
  ts : Nat
  tsSilent : Nat
  installOk : Bool
  infoOk : Bool
  m1 : Except String Unit
  m1FileExists : Bool
  m2 : Except String Unit
  deriving Repr

/-- Observable outcome of `downloadAudio`: the returned reference and
which strategies were invoked. -/
structure DlRun where
  path : String
  triedA : Bool
  triedB : Bool
  silent : Bool
  deriving DecidableEq, Repr

/-- `${videoId}_${timestamp}.wav`. -/
def audioFilename (videoId : String) (ts : Nat) : String :=
  videoId ++ "_" ++ toString ts ++ ".wav"

/-- Reference returned by `createSilentWav`
(`/audio/${videoId}_${timestamp}_silent.wav`). -/
def createSilentWavPath (videoId : String) (ts : Nat) : String :=
  "/audio/" ++ videoId ++ "_" ++ toString ts ++ "_silent.wav"

/-- Method 2 of `downloadAudio` (`getFileAsync` then write), reached only
after method 1 produced no file; on failure the outer catch synthesizes
the silent placeholder. -/
def downloadAudioMethod2 (videoId : String) (env : DlEnv) : DlRun :=
  match env.m2 with
  | .ok _ => ⟨"/audio/" ++ audioFilename videoId env.ts, true, true, false⟩
  | .error _ => ⟨createSilentWavPath videoId env.tsSilent, true, true, true⟩

/-- `downloadAudio` (`youtubePuppeteerService.js:435`): a failing info
lookup throws before either download method, landing in the outer catch
(silent placeholder); method 1's output file is only checked when
`downloadAsync` resolves without throwing. -/
def downloadAudio (videoId : String) (env : DlEnv) : DlRun :=
  if !env.infoOk then ⟨createSilentWavPath videoId env.tsSilent, false, false, true⟩
  else
    match env.m1 with
    | .ok _ =>
      if env.m1FileExists then ⟨"/audio/" ++ audioFilename videoId env.ts, true, false, false⟩
      else downloadAudioMethod2 videoId env
    | .error _ => downloadAudioMethod2 videoId env

/-! ### The silent WAV placeholder (`youtubePuppeteerService.js:599`)

The buffer is a zero-filled byte list written to in sequence, mirroring
`Buffer.alloc` and the `buffer.write`/`writeUInt32LE`/`writeUInt16LE`
calls of `createSilentWav`. -/

/-- Overwrite `bs.length` bytes of `buf` starting at `off`. -/
def writeBytesAt (buf : List Nat) (off : Nat) (bs : List Nat) : List Nat :=
  buf.take off ++ bs ++ buf.drop (off + bs.length)

/-- ASCII bytes of a tag string (`buffer.write`). -/
def asciiBytes (s : String) : List Nat :=
  s.toList.map Char.toNat

/-- `writeUInt32LE`. -/
def uint32le (v : Nat) : List Nat :=
  [v % 256, v / 256 % 256, v / 65536 % 256, v / 16777216 % 256]

/-- `writeUInt16LE`. -/
def uint16le (v : Nat) : List Nat :=
  [v % 256, v / 256 % 256]

def wavSampleRate : Nat := 16000
def wavDurationSec : Nat := 10
def wavNumSamples : Nat := wavSampleRate * wavDurationSec
def wavNumChannels : Nat := 1
def wavBitsPerSample : Nat := 16
def wavBytesPerSample : Nat := wavBitsPerSample / 8
def wavBlockAlign : Nat := wavNumChannels * wavBytesPerSample
def wavByteRate : Nat := wavSampleRate * wavBlockAlign
def wavDataSize : Nat := wavNumSamples * wavBlockAlign
def wavFileSize : Nat := 36 + wavDataSize

/-- The byte content `createSilentWav` writes to disk. -/
def silentWavBuffer : List Nat :=
  let b0 := List.replicate (44 + wavDataSize) 0
  let b1 := writeBytesAt b0 0 (asciiBytes "RIFF")
  let b2 := writeBytesAt b1 4 (uint32le wavFileSize)
  let b3 := writeBytesAt b2 8 (asciiBytes "WAVE")
  let b4 := writeBytesAt b3 12 (asciiBytes "fmt ")
  let b5 := writeBytesAt b4 16 (uint32le 16)
  let b6 := writeBytesAt b5 20 (uint16le 1)
  let b7 := writeBytesAt b6 22 (uint16le wavNumChannels)
  let b8 := writeBytesAt b7 24 (uint32le wavSampleRate)
  let b9 := writeBytesAt b8 28 (uint32le wavByteRate)
  let b10 := writeBytesAt b9 32 (uint16le wavBlockAlign)
  let b11 := writeBytesAt b10 34 (uint16le wavBitsPerSample)
  let b12 := writeBytesAt b11 36 (asciiBytes "data")
  let b13 := writeBytesAt b12 40 (uint32le wavDataSize)
  b13

/-- The 44 header bytes the claim describes, field by field. -/
def silentWavHeader : List Nat :=
  asciiBytes "RIFF" ++ uint32le wavFileSize ++ asciiBytes "WAVE"
    ++ asciiBytes "fmt " ++ uint32le 16 ++ uint16le 1 ++ uint16le wavNumChannels
    ++ uint32le wavSampleRate ++ uint32le wavByteRate ++ uint16le wavBlockAlign
    ++ uint16le wavBitsPerSample ++ asciiBytes "data" ++ uint32le wavDataSize

/-- Little-endian 16-bit read from a byte list. -/
def readU16le (buf : List Nat) (off : Nat) : Nat :=
  buf.getD off 0 + 256 * buf.getD (off + 1) 0

/-- Little-endian 32-bit read from a byte list. -/
def readU32le (buf : List Nat) (off : Nat) : Nat :=
  buf.getD off 0 + 256 * buf.getD (off + 1) 0
    + 65536 * buf.getD (off + 2) 0 + 16777216 * buf.getD (off + 3) 0

/-! ### The pipeline (`analyzeVideo`, `youtubePuppeteerService.js:69`) -/

/-- One thumbnail entry. -/
structure Thumbnail where
  url : String
  width : Nat
  height : Nat
  deriving DecidableEq, Repr

/-- `generateThumbnails` (`youtubePuppeteerService.js:656`): four fixed
URLs derived only from the identifier. -/
def generateThumbnails (videoId : String) : List Thumbnail :=
  [⟨"https://img.youtube.com/vi/" ++ videoId ++ "/default.jpg", 120, 90⟩,
   ⟨"https://img.youtube.com/vi/" ++ videoId ++ "/mqdefault.jpg", 320, 180⟩,
   ⟨"https://img.youtube.com/vi/" ++ videoId ++ "/hqdefault.jpg", 480, 360⟩,
   ⟨"https://img.youtube.com/vi/" ++ videoId ++ "/maxresdefault.jpg", 1280, 720⟩]

/-- Result of `checkPlaybackStatus`, already degraded on any DOM failure. -/
structure PlaybackStatus where
  canPlay : Bool
  isPlaying : Bool
  error : Option String
  deriving DecidableEq, Repr

structure AuthorInfo where
  name : String
  channelUrl : String
  subscriberCount : Nat
  deriving DecidableEq, Repr

/-- The `audio` sub-object: the success path sets `method`, the degraded
path sets `error` instead. -/
structure AudioInfo where
  path : Option String
  format : String
  sampleRate : String
  channels : String
  bitDepth : String
  method : Option String
  error : Option String
  deriving DecidableEq, Repr

/-- The `transcription` sub-object of the analysis record; `confidence`
and `wordCount` are absent in the no-audio default block. -/
structure TranscriptionBlock where
  success : Bool
  text : String
  speakers : List String
  events : List String
  confidence : Option ℚ
  wordCount : Option Nat
  error : Option String
  timestamp : String
  deriving DecidableEq, Repr

/-- The default transcription block used when no audio is available
(`youtubePuppeteerService.js:262`). -/
def defaultTranscriptionBlock (now : String) : TranscriptionBlock :=
  ⟨false, "", [], [], none, none, some "No audio available for transcription", now⟩

/-- The analysis record (clock readings and the `technical` sub-object,
which are raw environment echoes, are not modeled). -/
structure AnalysisRecord where
  videoId : String
  title : String
  description : String
  duration : String
  viewCount : Option ℤ
  author : AuthorInfo
  playback : PlaybackStatus
  screenshotPath : Option String
  audio : AudioInfo
  transcription : TranscriptionBlock
  thumbnails : List Thumbnail
  url : String
  method : String
  error : Option String
  deriving DecidableEq, Repr

/-- Environment of one `analyzeVideo` call.  `stageFailure` is the message
of an exception thrown anywhere between opening the page and assembling
the record (navigation timeout, both readiness waits failing, a
`page.evaluate` error, ...); `page` is the DOM as the selector cascades
see it; `playback` and `screenshot` are the (internally degraded) results
of `checkPlaybackStatus` and `takeScreenshot`. -/
structure AnalyzeEnv where
  stageFailure : Option String
  page : SelectorEnv
  playback : PlaybackStatus
  screenshot : Option String
  dl : DlEnv
  transcriptOutcome : Except String Transcript
  zg : Nat → Option ZgData
  now : String

/-- Which collaborators a run invoked. -/
structure PipelineTrace where
  dl : Option DlRun
  transcriberInvoked : Bool
  classifierInvoked : Bool

/-- The degraded record built in the catch block of `analyzeVideo`
(`youtubePuppeteerService.js:288`). -/
def fallbackRecord (url videoId errMsg now : String) : AnalysisRecord :=
  { videoId := videoId
    title := "Error loading video"
    description := "Failed to load YouTube page: " ++ errMsg
    duration := "Unknown"
    viewCount := some 0
    author := ⟨"Unknown", "", 0⟩
    playback := ⟨false, false, some errMsg⟩
    screenshotPath := none
    audio := ⟨none, "wav", "16kHz", "mono", "16bit", none,
      some "Audio download failed due to video loading error"⟩
    transcription := ⟨false, "", [], [], none, none,
      some "Video loading failed - no transcription available", now⟩
    thumbnails := generateThumbnails videoId
    url := url
    method := "Puppeteer (failed)"
    error := some errMsg }

/-- The transcription sub-object on the success path
(`youtubePuppeteerService.js:253`). -/
def transcriptionBlockOf (res : Option TransResult) (now : String) : TranscriptionBlock :=
  match res with
  | some tr =>
    { success := tr.success
      text := if tr.success then (formatTranscription tr).text else ""
      speakers := if tr.success then (formatTranscription tr).speakers else []
      events := if tr.success then (formatTranscription tr).events else []
      confidence := some (if tr.success then (formatTranscription tr).confidence else 0)
      wordCount := some (if tr.success then (formatTranscription tr).wordCount else 0)
      error := if tr.success then none else tr.error
      timestamp := tr.timestamp }
  | none => defaultTranscriptionBlock now

/-- `analyzeVideo` (`youtubePuppeteerService.js:69`).  The identifier is
extracted inside the `try`; on any stage failure the catch block calls
`extractVideoId` again (same pure result) and returns the degraded record
— so a URL on which extraction throws makes `analyzeVideo` itself throw,
from the catch block.  Audio with `'silent'` in its reference skips
transcription. -/
def analyzeVideo (url : String) (env : AnalyzeEnv) :
    Except String (AnalysisRecord × PipelineTrace) :=
  match extractVideoId url with
  | .error e => .error e
  | .ok videoId =>
    match env.stageFailure with
    | some errMsg =>
      .ok (fallbackRecord url videoId errMsg env.now, ⟨none, false, false⟩)
    | none =>
      let info := evaluateVideoInfo env.page
      let run := downloadAudio videoId env.dl
      let audioPath := run.path
      let invokeTranscription := audioPath ≠ "" && !(strIncludes audioPath "silent")
      let transcriptionPair : Option (TransResult × Bool) :=
        if invokeTranscription then
          some (transcribeAudioFile audioPath ⟨env.transcriptOutcome, env.zg, env.now⟩)
        else none
      .ok
        ({ videoId := videoId
           title := info.title
           description := info.description
           duration := info.duration
           viewCount := parseViewCount info.viewCount
           author := ⟨info.channelName,
             "https://youtube.com/@" ++ stripWhitespace info.channelName, 0⟩
           playback := env.playback
           screenshotPath := env.screenshot
           audio := ⟨some audioPath, "wav", "16kHz", "mono", "16bit",
             some (if audioPath ≠ "" then
                     (if strIncludes audioPath "silent" then "Silent placeholder"
                      else "Downloaded")
                   else "Failed"),
             none⟩
           transcription := transcriptionBlockOf (transcriptionPair.map Prod.fst) env.now
           thumbnails := generateThumbnails videoId
           url := url
           method := "Puppeteer"
           error := none },
         ⟨some run, invokeTranscription,
          (transcriptionPair.map Prod.snd).getD false⟩)

/-! ### Helper lemmas -/

/-- The classification loop keeps exactly the candidates whose trimmed
length exceeds 10, at any starting index. -/
lemma processLoop_length (zg : Nat → Option ZgData) :
    ∀ (sents : List String) (i : Nat),
      (processLoop zg i sents).length
        = (sents.filter (fun s => (jsTrim s).length > 10)).length := by
  intro sents
  induction sents with
  | nil => intro i; rfl
  | cons s rest ih =>
    intro i
    by_cases h : (jsTrim s).length > 10
    · simp [processLoop, List.filter, h, ih]
    · simp [processLoop, List.filter, h, ih]

/-- A left fold of additions is the sum of the mapped list. -/
lemma foldl_add_comp (f : SentScore → ℚ) :
    ∀ (l : List SentScore) (c : ℚ),
      l.foldl (fun sum s => sum + f s) c = c + (l.map f).sum := by
  intro l
  induction l with
  | nil => intro c; simp
  | cons x xs ih => intro c; simp [ih, add_assoc]

/-- A nonempty string has positive length. -/
lemma length_pos_of_ne_empty (s : String) (h : s ≠ "") : 0 < s.length := by
  obtain ⟨data⟩ := s
  cases data with
  | nil => exact absurd rfl h
  | cons c cs => simp [String.length]

/-! ### Claims -/

/-- Detector oracle that always fails (every request degrades to the
zero-confidence score). -/
def zgNone : Nat → Option ZgData := fun _ => none

/-- A transcript of three sentences, the middle one 4 characters long. -/
def c1text : String := "Alpha beta gamma. Hiya. Delta epsilon zeta."

/-- C1 (counterexample): on a transcript of 3 sentences where one is 4
characters long, the split candidates (after trimming) are the three
sentences plus the empty trailing piece, yet `total_sentences` is 2, not
3 — the ≤ 5-character fragments are discarded from the count as well, not
only from the candidate list. -/
theorem c1_counterexample :
    ((jsSplitSentences c1text).map jsTrim)
        = ["Alpha beta gamma", "Hiya", "Delta epsilon zeta", ""]
      ∧ (aiAnalysisOf c1text zgNone).total_sentences = 2
      ∧ (aiAnalysisOf c1text zgNone).processed_sentences = 2
      ∧ ¬ (aiAnalysisOf c1text zgNone).total_sentences = 3 := by
  refine ⟨by decide, by decide, by decide, by decide⟩

/-- C1 (amended): `total_sentences` counts the split fragments whose
trimmed length exceeds 5 (short fragments are discarded from the count as
well as from the candidate list), and `processed_sentences` counts the
candidates whose trimmed length exceeds 10; the 3-sentence example with
one 4-character sentence therefore yields `total_sentences = 2` and
`processed_sentences = 2`, and an empty transcript yields
`total_sentences = 0`. -/
theorem c1_amended :
    (∀ (text : String) (zg : Nat → Option ZgData),
        (aiAnalysisOf text zg).total_sentences
            = (((jsSplitSentences text).map jsTrim).filter
                (fun s => s.length > 5)).length
          ∧ (aiAnalysisOf text zg).processed_sentences
            = ((extractSentences text).filter (fun s => (jsTrim s).length > 10)).length)
      ∧ (∀ zg : Nat → Option ZgData,
        (aiAnalysisOf c1text zg).total_sentences = 2
          ∧ (aiAnalysisOf c1text zg).processed_sentences = 2
          ∧ (aiAnalysisOf "" zg).total_sentences = 0) := by
  constructor
  · intro text zg
    constructor
    · show (extractSentences text).length = _
      by_cases h : text = ""
      · subst h; decide
      · simp [extractSentences, h]
    · show (processLoop zg 0 (extractSentences text)).length = _
      exact processLoop_length zg (extractSentences text) 0
  · intro zg
    refine ⟨?_, ?_, ?_⟩
    · show (extractSentences c1text).length = 2
      decide
    · show (processLoop zg 0 (extractSentences c1text)).length = 2
      rw [processLoop_length zg (extractSentences c1text) 0]
      decide
    · show (extractSentences "").length = 0
      decide

/-- C3 (counterexample): `parseViewCount` does not return 0 on every
unparsable text — `"abc"` contains a `b`, so the result is
`Math.floor(NaN * 1e9) = NaN` (`none`); and the magnitude letter need not
be trailing — `"1k2"` parses as 1 and is scaled by the `k` to 1000 rather
than being returned as the parsed integer. -/
theorem c3_counterexample :
    parseViewCount "abc" = none
      ∧ ¬ parseViewCount "abc" = some 0
      ∧ jsParseFloat "1k2" = some ⟨1, 1⟩
      ∧ parseViewCount "1k2" = some 1000 := by
  refine ⟨by decide, by decide, by decide, by decide⟩

/-- C3 (amended): after lowercasing and stripping commas/whitespace, a
`k`/`m`/`b` occurring ANYWHERE in the text (tested in that order) scales
the `parseFloat` value by 10^3/10^6/10^9 with flooring; text with no such
letter yields the floored parse, or 0 when unparsable; unparsable text
that does contain such a letter yields `NaN` (`none`).  All the spec's
examples hold. -/
theorem c3_amended :
    parseViewCount "1,234" = some 1234
      ∧ parseViewCount "10K" = some 10000
      ∧ parseViewCount "2.5M" = some 2500000
      ∧ parseViewCount "1B" = some 1000000000
      ∧ parseViewCount "" = some 0
      ∧ parseViewCount "10k" = some 10000
      ∧ parseViewCount "3b" = some 3000000000
      ∧ parseViewCount "123" = some 123
      ∧ parseViewCount "1,234,567 views" = some 1234567
      ∧ parseViewCount "xyz" = some 0
      ∧ parseViewCount "1k2" = some 1000
      ∧ parseViewCount "abc" = none := by
  refine ⟨by decide, by decide, by decide, by decide, by decide, by decide,
    by decide, by decide, by decide, by decide, by decide, by decide⟩

/-- Environment for a run whose only anomaly is a download setup with an
inaccessible video; the transcription API is never reachable. -/
def c9env : AnalyzeEnv :=
  ⟨none, fun _ => none, ⟨false, false, none⟩, none,
    ⟨1, 2, true, true, Except.ok (), true, Except.ok ()⟩,
    Except.error "no API key", zgNone, "T0"⟩

/-- C9 (confirmed): `"https://www.youtube.com/watch?v=short"` passes
`isValidYouTubeUrl` (the first allow-list pattern only checks the prefix)
but `extractVideoId` throws because the `v` parameter is shorter than 11
characters, and hence `analyzeVideo` itself throws on it. -/
theorem c9_valid_url_extraction_fails :
    isValidYouTubeUrl "https://www.youtube.com/watch?v=short" = true
      ∧ extractVideoId "https://www.youtube.com/watch?v=short"
          = Except.error "Could not extract video ID"
      ∧ analyzeVideo "https://www.youtube.com/watch?v=short" c9env
          = Except.error "Could not extract video ID" :=
  ⟨by decide, rfl, rfl⟩

/-- Download environment in which the info lookup and method 1 succeed
and method 1's output file exists. -/
def c5envA : DlEnv := ⟨1, 2, true, true, Except.ok (), true, Except.ok ()⟩

/-- Download environment in which method 1 throws (e.g. in a
postprocessing step) even though its expected output file exists. -/
def c5envX : DlEnv := ⟨1, 2, true, true, Except.error "postprocessor failed", true, Except.ok ()⟩

/-- Download environment in which the preliminary info lookup fails. -/
def c5envI : DlEnv := ⟨1, 2, true, false, Except.ok (), true, Except.ok ()⟩

/-- C5 (counterexample): when strategy A (`downloadAsync`) throws, the
file-existence check is skipped, so strategy B (`getFileAsync`) IS
invoked even though strategy A's expected output file exists. -/
theorem c5_counterexample :
    c5envX.m1FileExists = true
      ∧ (downloadAudio "AAAAAAAAAAA" c5envX).triedB = true := by
  refine ⟨by decide, by decide⟩

/-- C5 (amended): when strategy A resolves without throwing and its
expected output file exists, its reference is returned immediately and
strategy B is never invoked; and when the preliminary info lookup fails,
neither strategy is attempted and acquisition falls through directly to
the silent placeholder. -/
theorem c5_amended (vid : String) (env : DlEnv) :
    (env.infoOk = true → env.m1 = Except.ok () → env.m1FileExists = true →
        downloadAudio vid env
          = ⟨"/audio/" ++ audioFilename vid env.ts, true, false, false⟩)
      ∧ (env.infoOk = false →
        downloadAudio vid env
          = ⟨createSilentWavPath vid env.tsSilent, false, false, true⟩) := by
  constructor
  · intro hinfo hm1 hex
    simp [downloadAudio, hinfo, hm1, hex]
  · intro hinfo
    simp [downloadAudio, hinfo]

/-- Witness for C5 at concrete environments: one in which strategy A
succeeds with its file present, one in which the info lookup fails. -/
theorem c5_witness :
    downloadAudio "AAAAAAAAAAA" c5envA
        = ⟨"/audio/" ++ audioFilename "AAAAAAAAAAA" 1, true, false, false⟩
      ∧ downloadAudio "AAAAAAAAAAA" c5envI
        = ⟨createSilentWavPath "AAAAAAAAAAA" 2, false, false, true⟩ :=
  ⟨(c5_amended "AAAAAAAAAAA" c5envA).1 rfl rfl rfl,
   (c5_amended "AAAAAAAAAAA" c5envI).2 rfl⟩

/-- C6 (confirmed): the silent placeholder is exactly a 44-byte RIFF/WAVE
header — declaring PCM (format tag 1 at offset 20), 1 channel (offset
22), sample rate 16000 (offset 24) and 16 bits per sample (offset 34) —
followed by 10 seconds × 16000 samples × 2 bytes of zero-valued data. -/
theorem c6_silent_wav :
    silentWavBuffer = silentWavHeader ++ List.replicate (10 * 16000 * 2) 0
      ∧ silentWavHeader.length = 44
      ∧ silentWavBuffer.length = 44 + 10 * 16000 * 2
      ∧ readU16le silentWavBuffer 20 = 1
      ∧ readU16le silentWavBuffer 22 = 1
      ∧ readU32le silentWavBuffer 24 = 16000
      ∧ readU16le silentWavBuffer 34 = 16 := by
  have h1 : silentWavBuffer.take 44 = silentWavHeader := by decide
  have h2 : silentWavBuffer.drop 44 = List.replicate 320000 0 := rfl
  have hmain : silentWavBuffer = silentWavHeader ++ List.replicate (10 * 16000 * 2) 0 := by
    have := (List.take_append_drop 44 silentWavBuffer).symm
    rw [h1, h2] at this
    exact this
  refine ⟨hmain, by decide, ?_, by decide, by decide, by decide, by decide⟩
  have hh : silentWavHeader.length = 44 := by decide
  rw [hmain, List.length_append, List.length_replicate, hh]

/-- C8 (confirmed): when the transcription stage fails for any reason,
`transcribeAudioFile` returns `{success: false, error, timestamp}` (with
the audio reference echoed back) and the sentence classifier
(`processTranscriptWithAI`) is never invoked on that result. -/
theorem c8_failure_path (audioPath : String) (env : TransEnv) (e : String)
    (h : env.outcome = Except.error e) :
    transcribeAudioFile audioPath env
        = (⟨false, some e, none, none, env.now, audioPath⟩, false)
      ∧ (transcribeAudioFile audioPath env).1.success = false
      ∧ (transcribeAudioFile audioPath env).1.error = some e
      ∧ (transcribeAudioFile audioPath env).1.timestamp = env.now
      ∧ (transcribeAudioFile audioPath env).2 = false := by
  have hmain : transcribeAudioFile audioPath env
      = (⟨false, some e, none, none, env.now, audioPath⟩, false) := by
    simp [transcribeAudioFile, h]
  refine ⟨hmain, by rw [hmain], by rw [hmain], by rw [hmain], by rw [hmain]⟩

/-- Failing transcription environment used as the C8 witness. -/
def c8env : TransEnv := ⟨Except.error "fetch failed", zgNone, "2024-01-01T00:00:00Z"⟩

/-- Witness for C8 at a concrete failing environment. -/
theorem c8_witness :
    transcribeAudioFile "/audio/AAAAAAAAAAA_1.wav" c8env
        = (⟨false, some "fetch failed", none, none, "2024-01-01T00:00:00Z",
            "/audio/AAAAAAAAAAA_1.wav"⟩, false)
      ∧ (transcribeAudioFile "/audio/AAAAAAAAAAA_1.wav" c8env).2 = false :=
  ⟨(c8_failure_path "/audio/AAAAAAAAAAA_1.wav" c8env "fetch failed" rfl).1,
   (c8_failure_path "/audio/AAAAAAAAAAA_1.wav" c8env "fetch failed" rfl).2.2.2.2⟩

/-- Environment of a run whose navigation times out; the rest of the
environment is arbitrary but concrete. -/
def c2env : AnalyzeEnv :=
  ⟨some "Navigation timeout of 30000 ms exceeded", fun _ => none,
    ⟨false, false, none⟩, none,
    ⟨1, 2, true, false, Except.ok (), false, Except.ok ()⟩,
    Except.error "no transcription API", zgNone, "T0"⟩

/-- C2 (counterexample): `analyzeVideo` does not return a degraded record
for EVERY input URL — on a URL that passes validation but defeats
identifier extraction, the catch block's own `extractVideoId` call throws
again, so the exception escapes `analyzeVideo`. -/
theorem c2_counterexample :
    isValidYouTubeUrl "https://www.youtube.com/watch?v=abc" = true
      ∧ analyzeVideo "https://www.youtube.com/watch?v=abc" c2env
          = Except.error "Could not extract video ID" :=
  ⟨by decide, rfl⟩

/-- C2 (amended): for every URL on which identifier extraction succeeds,
an internal stage failure yields the complete degraded record: method tag
`"Puppeteer (failed)"` (containing the failure marker `"failed"`), title
`"Error loading video"`, and a non-empty thumbnail list derived purely
from the extracted identifier. -/
theorem c2_amended (url : String) (env : AnalyzeEnv) (vid err : String)
    (hvid : extractVideoId url = Except.ok vid)
    (hfail : env.stageFailure = some err) :
    analyzeVideo url env
        = Except.ok (fallbackRecord url vid err env.now, ⟨none, false, false⟩)
      ∧ (fallbackRecord url vid err env.now).method = "Puppeteer (failed)"
      ∧ strIncludes (fallbackRecord url vid err env.now).method "failed" = true
      ∧ (fallbackRecord url vid err env.now).title = "Error loading video"
      ∧ (fallbackRecord url vid err env.now).thumbnails = generateThumbnails vid
      ∧ (fallbackRecord url vid err env.now).thumbnails ≠ [] := by
  refine ⟨?_, rfl, (by decide : strIncludes "Puppeteer (failed)" "failed" = true),
    rfl, rfl, ?_⟩
  · simp only [analyzeVideo, hvid, hfail]
  · simp [fallbackRecord, generateThumbnails]

/-- Witness for C2: a short-link URL with an extractable identifier and a
navigation-timeout environment produce the degraded record. -/
theorem c2_witness :
    analyzeVideo "https://youtu.be/BBBBBBBBBBB" c2env
        = Except.ok (fallbackRecord "https://youtu.be/BBBBBBBBBBB" "BBBBBBBBBBB"
            "Navigation timeout of 30000 ms exceeded" "T0", ⟨none, false, false⟩)
      ∧ strIncludes (fallbackRecord "https://youtu.be/BBBBBBBBBBB" "BBBBBBBBBBB"
            "Navigation timeout of 30000 ms exceeded" "T0").method "failed" = true := by
  have h := c2_amended "https://youtu.be/BBBBBBBBBBB" c2env "BBBBBBBBBBB"
    "Navigation timeout of 30000 ms exceeded" rfl rfl
  exact ⟨h.1, h.2.2.1⟩

/-- A selector strategy yields no content: it finds no element, or the
element it finds has empty text and no content attribute. -/
def yieldsNoContent (env : SelectorEnv) (sel : String) : Prop :=
  env sel = none ∨ ∃ el, env sel = some el ∧ elValue el "" = ""

/-- Page on which the first title selector finds an element with empty
text and the second would yield a real title. -/
def c4env : SelectorEnv := fun sel =>
  if sel = "h1.ytd-watch-metadata yt-formatted-string" then some ⟨some "", none⟩
  else if sel = "h1.style-scope.ytd-watch-metadata" then some ⟨some "Real Title", none⟩
  else none

/-- C4 (counterexample): the title cascade does NOT skip a strategy that
yields no content — it stops at the first selector that finds an element;
with strategy 1 yielding an empty-text element and strategy 2 a non-empty
title, the extractor returns the default, not strategy 2's value. -/
theorem c4_counterexample :
    c4env "h1.ytd-watch-metadata yt-formatted-string" = some ⟨some "", none⟩
      ∧ c4env "h1.style-scope.ytd-watch-metadata" = some ⟨some "Real Title", none⟩
      ∧ (evaluateVideoInfo c4env).title = "Unknown Title"
      ∧ ¬ (evaluateVideoInfo c4env).title = "Real Title" := by
  refine ⟨by decide, by decide, by decide, by decide⟩

/-- A duration strategy leaves the carried value at `"Unknown"`: it finds
no element, or the element's value over the carried `"Unknown"` is again
`"Unknown"` — which covers both empty content and a literal `"Unknown"`
value (the loop's test cannot tell the two apart). -/
def yieldsNoDurationContent (env : SelectorEnv) (sel : String) : Prop :=
  env sel = none ∨ ∃ el, env sel = some el ∧ elValue el "Unknown" = "Unknown"

/-- A view-count strategy is passed over: it finds no element, or the
element's raw `textContent` is absent or the empty string (falsy). -/
def yieldsNoViewText (env : SelectorEnv) (sel : String) : Prop :=
  env sel = none ∨ ∃ el, env sel = some el
    ∧ (el.textContent = none ∨ el.textContent = some "")

/-- The title/channel loop returns the default when no selector finds an
element at all. -/
lemma firstElementCascade_exhaust (env : SelectorEnv) (dflt : String) :
    ∀ sels : List String, (∀ s ∈ sels, env s = none) →
      firstElementCascade env sels dflt = dflt := by
  intro sels
  induction sels with
  | nil => intro _; rfl
  | cons s rest ih =>
    intro h
    simp only [firstElementCascade, h s (by simp)]
    exact ih (fun t ht => h t (by simp [ht]))

/-- The description loop passes over no-content strategies and returns
the first non-empty value, whatever comes after. -/
lemma descriptionCascade_skip (env : SelectorEnv) :
    ∀ (pre : List String) (sel : String) (post : List String) (el : Elem),
      (∀ s ∈ pre, yieldsNoContent env s) → env sel = some el →
      elValue el "" ≠ "" →
      descriptionCascade env (pre ++ sel :: post) "" = elValue el "" := by
  intro pre sel post el hpre hsel hval
  induction pre with
  | nil =>
    have hlen : 0 < (elValue el "").length := length_pos_of_ne_empty _ hval
    simp [descriptionCascade, hsel, hlen]
  | cons s rest2 ih =>
    rcases hpre s (by simp) with hnone | ⟨el0, hel0, hv0⟩
    · simp only [List.cons_append, descriptionCascade, hnone]
      exact ih (fun t ht => hpre t (by simp [ht]))
    · simp only [List.cons_append, descriptionCascade, hel0, hv0]
      simpa using ih (fun t ht => hpre t (by simp [ht]))

/-- The description loop returns the empty default when every strategy
yields no content. -/
lemma descriptionCascade_exhaust (env : SelectorEnv) :
    ∀ sels : List String, (∀ s ∈ sels, yieldsNoContent env s) →
      descriptionCascade env sels "" = "" := by
  intro sels
  induction sels with
  | nil => intro _; rfl
  | cons s rest ih =>
    intro h
    rcases h s (by simp) with hnone | ⟨el0, hel0, hv0⟩
    · simp only [descriptionCascade, hnone]
      exact ih (fun t ht => h t (by simp [ht]))
    · simp only [descriptionCascade, hel0, hv0]
      simpa using ih (fun t ht => h t (by simp [ht]))

/-- The duration loop passes over strategies that leave the value at
`"Unknown"` and returns the first value differing from `"Unknown"`,
whatever comes after. -/
lemma durationCascade_skip (env : SelectorEnv) :
    ∀ (pre : List String) (sel : String) (post : List String) (el : Elem),
      (∀ s ∈ pre, yieldsNoDurationContent env s) → env sel = some el →
      elValue el "Unknown" ≠ "Unknown" →
      durationCascade env (pre ++ sel :: post) "Unknown" = elValue el "Unknown" := by
  intro pre sel post el hpre hsel hval
  induction pre with
  | nil =>
    simp [durationCascade, hsel, hval]
  | cons s rest2 ih =>
    rcases hpre s (by simp) with hnone | ⟨el0, hel0, hv0⟩
    · simp only [List.cons_append, durationCascade, hnone]
      exact ih (fun t ht => hpre t (by simp [ht]))
    · simp only [List.cons_append, durationCascade, hel0, hv0]
      simpa using ih (fun t ht => hpre t (by simp [ht]))

/-- The duration loop returns `"Unknown"` when every strategy leaves the
value at `"Unknown"`. -/
lemma durationCascade_exhaust (env : SelectorEnv) :
    ∀ sels : List String, (∀ s ∈ sels, yieldsNoDurationContent env s) →
      durationCascade env sels "Unknown" = "Unknown" := by
  intro sels
  induction sels with
  | nil => intro _; rfl
  | cons s rest ih =>
    intro h
    rcases h s (by simp) with hnone | ⟨el0, hel0, hv0⟩
    · simp only [durationCascade, hnone]
      exact ih (fun t ht => h t (by simp [ht]))
    · simp only [durationCascade, hel0, hv0]
      simpa using ih (fun t ht => h t (by simp [ht]))

/-- The view-count loop passes over strategies with no element or falsy
`textContent` and returns the trim of the first non-empty raw
`textContent`, whatever comes after. -/
lemma viewCountCascade_skip (env : SelectorEnv) (dflt : String) :
    ∀ (pre : List String) (sel : String) (post : List String) (el : Elem)
      (t : String),
      (∀ s ∈ pre, yieldsNoViewText env s) → env sel = some el →
      el.textContent = some t → t ≠ "" →
      viewCountCascade env (pre ++ sel :: post) dflt = jsTrim t := by
  intro pre sel post el t hpre hsel ht hne
  induction pre with
  | nil =>
    simp [viewCountCascade, hsel, ht, hne]
  | cons s rest2 ih =>
    rcases hpre s (by simp) with hnone | ⟨el0, hel0, htc⟩
    · simp only [List.cons_append, viewCountCascade, hnone]
      exact ih (fun u hu => hpre u (by simp [hu]))
    · rcases htc with h0 | h0
      · simp only [List.cons_append, viewCountCascade, hel0, h0]
        exact ih (fun u hu => hpre u (by simp [hu]))
      · simp only [List.cons_append, viewCountCascade, hel0, h0]
        simpa using ih (fun u hu => hpre u (by simp [hu]))

/-- The view-count loop returns its default when every strategy finds no
element or only falsy `textContent`. -/
lemma viewCountCascade_exhaust (env : SelectorEnv) (dflt : String) :
    ∀ sels : List String, (∀ s ∈ sels, yieldsNoViewText env s) →
      viewCountCascade env sels dflt = dflt := by
  intro sels
  induction sels with
  | nil => intro _; rfl
  | cons s rest ih =>
    intro h
    rcases h s (by simp) with hnone | ⟨el0, hel0, htc⟩
    · simp only [viewCountCascade, hnone]
      exact ih (fun t ht => h t (by simp [ht]))
    · rcases htc with h0 | h0
      · simp only [viewCountCascade, hel0, h0]
        exact ih (fun t ht => h t (by simp [ht]))
      · simp only [viewCountCascade, hel0, h0]
        simpa using ih (fun t ht => h t (by simp [ht]))

/-- C4 (amended), per field.  Title and channel stop at the FIRST
selector that finds an element, whatever its content (keeping the named
default when that content is empty), and keep the default when no
selector finds an element.  Description follows the skip-no-content
cascade: strategies finding no element or only empty content are passed
over, the first non-empty value is returned and later strategies are not
evaluated, and the field stays empty on exhaustion.  Duration does the
same with its test against the carried `"Unknown"` — so an element whose
value is literally `"Unknown"` is also passed over — and stays
`"Unknown"` on exhaustion.  View count stops at the first element with
non-empty raw `textContent`, returning its trim, and keeps its default
`"0"` on exhaustion. -/
theorem c4_amended :
    (∀ (env : SelectorEnv) (dflt sel : String) (rest : List String) (el : Elem),
        env sel = some el →
        firstElementCascade env (sel :: rest) dflt = elValue el dflt)
      ∧ (∀ (env : SelectorEnv) (dflt : String) (sels : List String),
        (∀ s ∈ sels, env s = none) →
        firstElementCascade env sels dflt = dflt)
      ∧ (∀ (env : SelectorEnv) (pre : List String) (sel : String)
          (post : List String) (el : Elem),
        (∀ s ∈ pre, yieldsNoContent env s) → env sel = some el →
        elValue el "" ≠ "" →
        descriptionCascade env (pre ++ sel :: post) "" = elValue el "")
      ∧ (∀ (env : SelectorEnv) (sels : List String),
        (∀ s ∈ sels, yieldsNoContent env s) →
        descriptionCascade env sels "" = "")
      ∧ (∀ (env : SelectorEnv) (pre : List String) (sel : String)
          (post : List String) (el : Elem),
        (∀ s ∈ pre, yieldsNoDurationContent env s) → env sel = some el →
        elValue el "Unknown" ≠ "Unknown" →
        durationCascade env (pre ++ sel :: post) "Unknown" = elValue el "Unknown")
      ∧ (∀ (env : SelectorEnv) (sels : List String),
        (∀ s ∈ sels, yieldsNoDurationContent env s) →
        durationCascade env sels "Unknown" = "Unknown")
      ∧ (∀ (env : SelectorEnv) (dflt : String) (pre : List String)
          (sel : String) (post : List String) (el : Elem) (t : String),
        (∀ s ∈ pre, yieldsNoViewText env s) → env sel = some el →
        el.textContent = some t → t ≠ "" →
        viewCountCascade env (pre ++ sel :: post) dflt = jsTrim t)
      ∧ (∀ (env : SelectorEnv) (dflt : String) (sels : List String),
        (∀ s ∈ sels, yieldsNoViewText env s) →
        viewCountCascade env sels dflt = dflt) := by
  refine ⟨?_, ?_, ?_, ?_, ?_, ?_, ?_, ?_⟩
  · intro env dflt sel rest el h
    simp [firstElementCascade, h]
  · intro env dflt sels h
    exact firstElementCascade_exhaust env dflt sels h
  · intro env pre sel post el hpre hsel hval
    exact descriptionCascade_skip env pre sel post el hpre hsel hval
  · intro env sels h
    exact descriptionCascade_exhaust env sels h
  · intro env pre sel post el hpre hsel hval
    exact durationCascade_skip env pre sel post el hpre hsel hval
  · intro env sels h
    exact durationCascade_exhaust env sels h
  · intro env dflt pre sel post el t hpre hsel ht hne
    exact viewCountCascade_skip env dflt pre sel post el t hpre hsel ht hne
  · intro env dflt sels h
    exact viewCountCascade_exhaust env dflt sels h

/-- Page used as the C4 witness: a no-content strategy before a meta
description, a literal-`"Unknown"` strategy before a real duration, and
an empty-text strategy before a real view count. -/
def c4wenv : SelectorEnv := fun sel =>
  if sel = "sel-a" then some ⟨some "   ", none⟩
  else if sel = "sel-b" then some ⟨none, some "From meta"⟩
  else if sel = "sel-c" then some ⟨some "Unknown", none⟩
  else if sel = "sel-d" then some ⟨some "12:34", none⟩
  else if sel = "sel-e" then some ⟨some "", none⟩
  else if sel = "sel-f" then some ⟨some " 1,234 views ", none⟩
  else none

/-- Witness for C4 at a concrete page, exercising every loop shape: the
title cascade stops at the first element found, the description cascade
skips the no-content strategy, the duration cascade skips a literal
`"Unknown"`, and the view-count cascade skips an empty `textContent` and
also returns its default on exhaustion. -/
theorem c4_witness :
    firstElementCascade c4wenv ["sel-a", "sel-b"] "Unknown Title"
        = elValue ⟨some "   ", none⟩ "Unknown Title"
      ∧ descriptionCascade c4wenv (["sel-a"] ++ "sel-b" :: []) ""
        = elValue ⟨none, some "From meta"⟩ ""
      ∧ durationCascade c4wenv (["sel-c"] ++ "sel-d" :: []) "Unknown"
        = elValue ⟨some "12:34", none⟩ "Unknown"
      ∧ viewCountCascade c4wenv (["sel-e"] ++ "sel-f" :: []) "0"
        = jsTrim " 1,234 views "
      ∧ viewCountCascade c4wenv ["sel-e", "absent-selector"] "0" = "0" := by
  refine ⟨c4_amended.1 c4wenv "Unknown Title" "sel-a" ["sel-b"] ⟨some "   ", none⟩
      (by decide),
    c4_amended.2.2.1 c4wenv ["sel-a"] "sel-b" [] ⟨none, some "From meta"⟩
      ?_ (by decide) (by decide),
    c4_amended.2.2.2.2.1 c4wenv ["sel-c"] "sel-d" [] ⟨some "12:34", none⟩
      ?_ (by decide) (by decide),
    c4_amended.2.2.2.2.2.2.1 c4wenv "0" ["sel-e"] "sel-f" []
      ⟨some " 1,234 views ", none⟩ " 1,234 views " ?_ (by decide) rfl (by decide),
    c4_amended.2.2.2.2.2.2.2 c4wenv "0" ["sel-e", "absent-selector"] ?_⟩
  · intro s hs
    have hsa : s = "sel-a" := by simpa using hs
    subst hsa
    exact Or.inr ⟨⟨some "   ", none⟩, by decide, by decide⟩
  · intro s hs
    have hsc : s = "sel-c" := by simpa using hs
    subst hsc
    exact Or.inr ⟨⟨some "Unknown", none⟩, by decide, by decide⟩
  · intro s hs
    have hse : s = "sel-e" := by simpa using hs
    subst hse
    exact Or.inr ⟨⟨some "", none⟩, by decide, Or.inr (by decide)⟩
  · intro s hs
    rcases (by simpa using hs : s = "sel-e" ∨ s = "absent-selector") with h | h
    · subst h
      exact Or.inr ⟨⟨some "", none⟩, by decide, Or.inr (by decide)⟩
    · subst h
      exact Or.inl (by decide)

/-- C7 (confirmed): `overall_ai_probability` and
`average_fake_percentage` are the arithmetic means of the per-sentence
`ai_probability` and `fake_percentage` values (an absent
`fake_percentage` reading as 0) over the processed list, and both are 0
when the processed list is empty. -/
theorem c7_means (text : String) (zg : Nat → Option ZgData) :
    ((aiAnalysisOf text zg).sentences = [] →
      (aiAnalysisOf text zg).overall_ai_probability = 0
        ∧ (aiAnalysisOf text zg).average_fake_percentage = 0)
      ∧ ((aiAnalysisOf text zg).sentences ≠ [] →
      (aiAnalysisOf text zg).overall_ai_probability
          = ((aiAnalysisOf text zg).sentences.map (fun s => s.ai_probability)).sum
            / ((aiAnalysisOf text zg).sentences.length : ℚ)
        ∧ (aiAnalysisOf text zg).average_fake_percentage
          = ((aiAnalysisOf text zg).sentences.map
              (fun s => s.fake_percentage.getD 0)).sum
            / ((aiAnalysisOf text zg).sentences.length : ℚ)) := by
  have hs : (aiAnalysisOf text zg).sentences
      = processLoop zg 0 (extractSentences text) := rfl
  have ho : (aiAnalysisOf text zg).overall_ai_probability
      = if 0 < (processLoop zg 0 (extractSentences text)).length then
          ((processLoop zg 0 (extractSentences text)).foldl
            (fun sum s => sum + s.ai_probability) 0)
            / ((processLoop zg 0 (extractSentences text)).length : ℚ)
        else 0 := rfl
  have ha : (aiAnalysisOf text zg).average_fake_percentage
      = if 0 < (processLoop zg 0 (extractSentences text)).length then
          ((processLoop zg 0 (extractSentences text)).foldl
            (fun sum s => sum + s.fake_percentage.getD 0) 0)
            / ((processLoop zg 0 (extractSentences text)).length : ℚ)
        else 0 := rfl
  rw [hs, ho, ha]
  constructor
  · intro h
    rw [h]
    simp
  · intro h
    have hl : 0 < (processLoop zg 0 (extractSentences text)).length :=
      List.length_pos.mpr h
    rw [if_pos hl, if_pos hl, foldl_add_comp, foldl_add_comp]
    simp

/-- Transcript and oracle used as the C7 witness. -/
def c7text : String := "First meaningful sentence here. Second meaningful sentence there."

/-- Oracle answering every detector request with fake percentage 50. -/
def zg50 : Nat → Option ZgData := fun _ => some ⟨50, false, 5⟩

/-- Witness for C7 at a concrete transcript with a nonempty processed
list. -/
theorem c7_witness :
    (aiAnalysisOf c7text zg50).overall_ai_probability
        = ((aiAnalysisOf c7text zg50).sentences.map (fun s => s.ai_probability)).sum
          / ((aiAnalysisOf c7text zg50).sentences.length : ℚ)
      ∧ (aiAnalysisOf c7text zg50).average_fake_percentage
        = ((aiAnalysisOf c7text zg50).sentences.map
            (fun s => s.fake_percentage.getD 0)).sum
          / ((aiAnalysisOf c7text zg50).sentences.length : ℚ) :=
  (c7_means c7text zg50).2 (by decide)

/-- C10 (confirmed): on every successful analysis whose audio reference
contains the substring `'silent'`, the transcriber is never invoked and
the record's transcription sub-object is the fixed no-audio default
block. -/
theorem c10_silent_skip (url : String) (env : AnalyzeEnv) (rec : AnalysisRecord)
    (trace : PipelineTrace) (p : String)
    (hok : analyzeVideo url env = Except.ok (rec, trace))
    (hp : rec.audio.path = some p)
    (hs : strIncludes p "silent" = true) :
    trace.transcriberInvoked = false
      ∧ rec.transcription = defaultTranscriptionBlock env.now := by
  cases hvid : extractVideoId url with
  | error e =>
    simp only [analyzeVideo, hvid] at hok
    exact Except.noConfusion hok
  | ok vid =>
    cases hsf : env.stageFailure with
    | some msg =>
      simp only [analyzeVideo, hvid, hsf, Except.ok.injEq, Prod.mk.injEq] at hok
      obtain ⟨hrec, htrace⟩ := hok
      subst hrec
      simp [fallbackRecord] at hp
    | none =>
      simp only [analyzeVideo, hvid, hsf, Except.ok.injEq, Prod.mk.injEq] at hok
      obtain ⟨hrec, htrace⟩ := hok
      subst hrec
      subst htrace
      simp only [Option.some.injEq] at hp
      subst hp
      constructor
      · simp [hs]
      · simp [hs, transcriptionBlockOf]

/-- Analysis environment whose info lookup fails, forcing the silent
placeholder. -/
def c10env : AnalyzeEnv :=
  ⟨none, fun _ => none, ⟨false, false, none⟩, none,
    ⟨1, 2, true, false, Except.ok (), false, Except.ok ()⟩,
    Except.error "unused", zgNone, "T0"⟩

def c10url : String := "https://youtu.be/CCCCCCCCCCC"

/-- The record/trace pair of the C10 witness run. -/
def c10pair : AnalysisRecord × PipelineTrace :=
  match analyzeVideo c10url c10env with
  | Except.ok p => p
  | Except.error _ => (fallbackRecord "" "" "" "", ⟨none, false, false⟩)

/-- Witness for C10 at a concrete run acquiring the silent placeholder. -/
theorem c10_witness :
    c10pair.2.transcriberInvoked = false
      ∧ c10pair.1.transcription = defaultTranscriptionBlock "T0" :=
  c10_silent_skip c10url c10env c10pair.1 c10pair.2
    "/audio/CCCCCCCCCCC_2_silent.wav" rfl rfl (by decide)

end YTA
